import Mathlib

/-!
Verification of the ai-control-plane ingest pipeline (`src/app/main.py`).

The repository's orchestrator `_process_ingest` together with its two
adapter endpoints `ingest_api` and `ingest_slack` is embedded shallowly
below.  The modules it imports (`app.core.idempotency`,
`app.services.router`, `app.services.actuator`, `app.domain.schemas`,
`app.core.logging`) are not part of the provided sources, so their
behaviour is modelled from the specification (each such definition is
marked `Modelled from the spec:` in its doc comment).

Nondeterministic inputs of a run (uuid4 draws, the wall clock) are passed
explicitly as parameters of the run.  The actuator's underlying effect may
raise, so the pipeline is parameterised over an actuation function
returning `Except String ActionResult`; the spec-modelled risk-gated
actuator `execute_decision` is also defined and verified separately.
Audit records are returned as an ordered list, mirroring the order of the
`log_event` calls in the source.
-/

/-- Canonical Event record (spec section 3; fields as constructed at
`src/app/main.py` lines 98-106). Timestamps are modelled as `Nat`. -/
structure Event where
  event_id : String
  event_type : String
  source : String
  timestamp : Nat
  actor : Option String
  payload : List (String × String)
  metadata : List (String × String)
deriving Repr, DecidableEq

/-- Canonical ingestion request (spec section 6): `{event_type, source,
actor?, payload, metadata}`. -/
structure IngestRequest where
  event_type : String
  source : String
  actor : Option String
  payload : List (String × String)
  metadata : List (String × String)
deriving Repr, DecidableEq

/-- Slack-shaped request, fields as used by `ingest_slack`
(`src/app/main.py` lines 180-199): `user`, `text`, `channel`, `ts`. -/
structure SlackIngestRequest where
  user : String
  text : String
  channel : String
  ts : String
deriving Repr, DecidableEq

/-- Decision record (spec section 3). -/
structure Decision where
  decision_id : String
  event_id : String
  route : String
  risk_level : String
  reason : String
deriving Repr, DecidableEq

/-- ActionResult record (spec section 3); `status` is "executed" or "noop". -/
structure ActionResult where
  action_id : String
  event_id : String
  decision_id : String
  action_type : String
  status : String
  artifact_path : Option String
  reason : Option String
deriving Repr, DecidableEq

/-- The pipeline response `{event, decision}` returned to adapters. -/
structure IngestResponse where
  event : Event
  decision : Decision
deriving Repr, DecidableEq

/-- `HTTPException(status_code, detail)` as raised by the pipeline. -/
structure HTTPError where
  status_code : Nat
  detail : String
deriving Repr, DecidableEq

/-- One structured audit record emitted by `log_event`: an event name and
a map of string fields (spec section 6).  Non-string field values of the
source are rendered as strings. -/
structure AuditRecord where
  event_name : String
  fields : List (String × String)
deriving Repr, DecidableEq

/-- The idempotency store state: a finite map from idempotency key to
Event, modelled as an association list. -/
abbrev Store := List (String × Event)

/-- Modelled from the spec: `app.core.idempotency.get_event` is not under
src/.  Section 4.1: `get(key) -> Event | absent`, a pure lookup with no
side effects. -/
def get_event (store : Store) (key : String) : Option Event :=
  store.lookup key

/-- Modelled from the spec: `app.core.idempotency.set_event` is not under
src/.  Section 4.1: `set(key, event)` with first-writer-wins
compare-and-set semantics — an existing entry for the key is never
overwritten. -/
def set_event (store : Store) (key : String) (event : Event) : Store :=
  match store.lookup key with
  | some _ => store
  | none => (key, event) :: store

/-- Modelled from the spec: `app.services.router.route_event` is not under
src/.  Section 4.2: a pure, deterministic function of the Event content
producing route and risk_level; unrecognized event types map to a defined
default route and risk; never fails.  The `decision_id` is freshly
generated per call in the source, so it is taken here as an explicit
parameter of the call. -/
def route_event (decision_id : String) (event : Event) : Decision :=
  if event.event_type = "support_request" then
    { decision_id := decision_id
      event_id := event.event_id
      route := "support_queue"
      risk_level := "low"
      reason := "support request routed to support queue" }
  else
    { decision_id := decision_id
      event_id := event.event_id
      route := "default"
      risk_level := "medium"
      reason := "unrecognized event type mapped to default route" }

/-- Ordering of risk levels (spec section 3: ordered classification
low/medium/high). Unknown levels rank above high. -/
def riskRank : String → Nat
  | "low" => 0
  | "medium" => 1
  | "high" => 2
  | _ => 3

/-- The configured risk threshold of the actuator (spec section 4.3:
"a configured risk threshold"). -/
def risk_threshold : Nat := riskRank "medium"

/-- Routes the actuator knows how to act on (spec section 4.3:
decisions with unsupported routes resolve to noop). -/
def supported_routes : List String := ["support_queue"]

/-- Modelled from the spec: `app.services.actuator.execute_decision` is
not under src/.  Section 4.3: enforce risk gating — decisions above the
configured risk threshold, or with unsupported routes, resolve to
`status = noop` with a populated reason and never attempt the underlying
effect; actionable decisions perform the bounded side effect and report
`status = executed` with `artifact_path` set.  The fresh `action_id` is a
parameter; the second component of the result lists the external effects
attempted (empty when no effect was attempted). -/
def execute_decision (action_id : String) (event : Event) (decision : Decision) :
    ActionResult × List String :=
  if riskRank decision.risk_level > risk_threshold then
    ({ action_id := action_id
       event_id := event.event_id
       decision_id := decision.decision_id
       action_type := "none"
       status := "noop"
       artifact_path := none
       reason := some "risk level above configured threshold" }, [])
  else if decision.route ∈ supported_routes then
    ({ action_id := action_id
       event_id := event.event_id
       decision_id := decision.decision_id
       action_type := "write_artifact"
       status := "executed"
       artifact_path := some ("artifacts/" ++ event.event_id ++ ".md")
       reason := some "action executed" }, ["write_artifact:" ++ event.event_id])
  else
    ({ action_id := action_id
       event_id := event.event_id
       decision_id := decision.decision_id
       action_type := "none"
       status := "noop"
       artifact_path := none
       reason := some "route not supported by actuator" }, [])

/-- The nondeterministic draws of one pipeline run: the uuid4 for a new
Event, the uuid4 the router draws for the decision_id, and the
`datetime.utcnow()` instant. -/
structure RunFresh where
  event_id : String
  decision_id : String
  now : Nat
deriving Repr, DecidableEq

/-- Render an optional string field the way the source logs it. -/
def optStr (o : Option String) : String := o.getD ""

/-- The Event constructed at `src/app/main.py` lines 98-106: fresh id and
timestamp, remaining fields copied from the request. -/
def mkEvent (event_id : String) (now : Nat) (req : IngestRequest) : Event :=
  { event_id := event_id
    event_type := req.event_type
    source := req.source
    timestamp := now
    actor := req.actor
    payload := req.payload
    metadata := req.metadata }

/-- The `ingest_rejected` audit record (`src/app/main.py` lines 28-36). -/
def rejectRecord (req : IngestRequest) : AuditRecord :=
  { event_name := "ingest_rejected"
    fields := [("reason", "missing_idempotency_key"),
               ("event_type", req.event_type),
               ("source", req.source)] }

/-- The `ingest_duplicate` audit record (`src/app/main.py` lines 42-51). -/
def duplicateRecord (key : String) (event : Event) : AuditRecord :=
  { event_name := "ingest_duplicate"
    fields := [("idempotency_key", key),
               ("event_id", event.event_id),
               ("event_type", event.event_type),
               ("source", event.source)] }

/-- The `ingest_created` audit record (`src/app/main.py` lines 108-116). -/
def createdRecord (key : String) (event : Event) : AuditRecord :=
  { event_name := "ingest_created"
    fields := [("idempotency_key", key),
               ("event_id", event.event_id),
               ("event_type", event.event_type),
               ("source", event.source)] }

/-- The `decision_created` audit record (`src/app/main.py` lines 55-64
and 124-134). -/
def decisionRecord (d : Decision) : AuditRecord :=
  { event_name := "decision_created"
    fields := [("decision_id", d.decision_id),
               ("event_id", d.event_id),
               ("route", d.route),
               ("risk_level", d.risk_level),
               ("reason", d.reason)] }

/-- The `action_executed` / `action_noop` audit record
(`src/app/main.py` lines 68-82 and 137-151). -/
def actionRecord (a : ActionResult) : AuditRecord :=
  { event_name := if a.status = "executed" then "action_executed" else "action_noop"
    fields := [("action_id", a.action_id),
               ("event_id", a.event_id),
               ("decision_id", a.decision_id),
               ("action_type", a.action_type),
               ("status", a.status),
               ("artifact_path", optStr a.artifact_path),
               ("reason", optStr a.reason)] }

/-- The `action_failed` audit record (`src/app/main.py` lines 83-94 and
152-161). -/
def failedRecord (event : Event) (d : Decision) (err : String) : AuditRecord :=
  { event_name := "action_failed"
    fields := [("event_id", event.event_id),
               ("decision_id", d.decision_id),
               ("route", d.route),
               ("error", err)] }

/-- The audit record emitted for the outcome of the try/except around
`execute_decision` in the source: `actionRecord` on success,
`failedRecord` if the actuation effect raised. -/
def actOutcomeRecord (event : Event) (d : Decision) :
    Except String ActionResult → AuditRecord
  | .ok a => actionRecord a
  | .error e => failedRecord event d e

/-- The name of the audit record the try/except block emits for an
actuation outcome. -/
def actionName : Except String ActionResult → String
  | .ok a => if a.status = "executed" then "action_executed" else "action_noop"
  | .error _ => "action_failed"

/-- The decide-and-act suffix of the pipeline, duplicated verbatim in both
branches of the source (`src/app/main.py` lines 53-95 and 122-164): route
the event, log `decision_created`, run the actuation inside try/except and
log the action outcome.  Returns the decision and the two audit records in
emission order. -/
def decide_and_act (act : Event → Decision → Except String ActionResult)
    (decision_id : String) (event : Event) : Decision × List AuditRecord :=
  let decision := route_event decision_id event
  (decision, [decisionRecord decision, actOutcomeRecord event decision (act event decision)])

/-- Full outcome of one pipeline run: the returned response or raised
HTTP error, the store after the run, and the audit records in emission
order. -/
structure PipelineOutcome where
  result : Except HTTPError IngestResponse
  store : Store
  log : List AuditRecord
deriving Repr

/-- True when `if not idempotency_key:` fires in the source: the key is
absent or the empty string. -/
def keyMissing : Option String → Bool
  | none => true
  | some s => s = ""

/-- Shallow embedding of `_process_ingest` (`src/app/main.py` lines
16-164).  `act` is the imported `execute_decision` effect (it may raise,
modelled as `Except.error`); `fresh` carries the uuid4/clock draws of this
run; `store` is the idempotency store state before the run. -/
def _process_ingest (act : Event → Decision → Except String ActionResult)
    (fresh : RunFresh) (store : Store) (ingest_req : IngestRequest)
    (idempotency_key : Option String) : PipelineOutcome :=
  if keyMissing idempotency_key then
    { result := .error { status_code := 400, detail := "Missing Idempotency-Key header" }
      store := store
      log := [rejectRecord ingest_req] }
  else
    let key := (idempotency_key.getD "")
    match get_event store key with
    | some existing_event =>
        let da := decide_and_act act fresh.decision_id existing_event
        { result := .ok { event := existing_event, decision := da.1 }
          store := store
          log := duplicateRecord key existing_event :: da.2 }
    | none =>
        let event := mkEvent fresh.event_id fresh.now ingest_req
        let store2 := set_event store key event
        let da := decide_and_act act fresh.decision_id event
        { result := .ok { event := event, decision := da.1 }
          store := store2
          log := createdRecord key event :: da.2 }

/-- Shallow embedding of the `/ingest/api` endpoint (`src/app/main.py`
lines 171-177): passes the canonical request straight to the shared
pipeline. -/
def ingest_api (act : Event → Decision → Except String ActionResult)
    (fresh : RunFresh) (store : Store) (req : IngestRequest)
    (idempotency_key : Option String) : PipelineOutcome :=
  _process_ingest act fresh store req idempotency_key

/-- Shallow embedding of the `/ingest/slack` endpoint (`src/app/main.py`
lines 180-199): translate the Slack-shaped payload into the canonical
IngestRequest, then run the exact same pipeline. -/
def ingest_slack (act : Event → Decision → Except String ActionResult)
    (fresh : RunFresh) (store : Store) (slack : SlackIngestRequest)
    (idempotency_key : Option String) : PipelineOutcome :=
  let ingest_req : IngestRequest :=
    { event_type := "support_request"
      source := "slack"
      actor := some slack.user
      payload := [("text", slack.text)]
      metadata := [("channel", slack.channel), ("ts", slack.ts)] }
  _process_ingest act fresh store ingest_req idempotency_key

/-- The canonical request the Slack adapter is claimed to produce, written
from the claim's words (for the refinement comparison with `ingest_slack`):
event_type "support_request", source "slack", actor the Slack user,
payload {text}, metadata {channel, ts}. -/
def canonicalOfSlack (slack : SlackIngestRequest) : IngestRequest :=
  { event_type := "support_request"
    source := "slack"
    actor := some slack.user
    payload := [("text", slack.text)]
    metadata := [("channel", slack.channel), ("ts", slack.ts)] }

/-- Number of audit records in `log` carrying the given event name. -/
def countName (log : List AuditRecord) (name : String) : Nat :=
  (log.filter (fun r => r.event_name = name)).length

/-- Number of action-outcome audit records (executed, noop or failed). -/
def countAction (log : List AuditRecord) : Nat :=
  (log.filter (fun r =>
    r.event_name = "action_executed" ∨ r.event_name = "action_noop" ∨
      r.event_name = "action_failed")).length

/-- The Event an admission with key `k` observes on a run with draws
`fresh` and request `req`: the stored Event when the key is present, the
freshly created one otherwise. -/
def admittedEvent (store : Store) (k : String) (fresh : RunFresh)
    (req : IngestRequest) : Event :=
  match get_event store k with
  | some e => e
  | none => mkEvent fresh.event_id fresh.now req

/-- Small concrete fixtures used by the witness theorems. -/
def req0 : IngestRequest :=
  { event_type := "support_request", source := "api", actor := none,
    payload := [("text", "help")], metadata := [] }

/-- A second concrete request with different content from `req0`. -/
def req1 : IngestRequest :=
  { event_type := "other", source := "api", actor := some "alice",
    payload := [("text", "again")], metadata := [] }

/-- A concrete Slack-shaped request. -/
def slack0 : SlackIngestRequest :=
  { user := "bob", text := "hi", channel := "c1", ts := "t1" }

/-- Concrete actuation effect wrapping the spec-modelled actuator. -/
def actOk : Event → Decision → Except String ActionResult :=
  fun e d => .ok (execute_decision "act-1" e d).1

/-- Concrete actuation effect that always raises. -/
def actFail : Event → Decision → Except String ActionResult :=
  fun _ _ => .error "disk full"

/-- Concrete fresh draws for a first run. -/
def fresh1 : RunFresh := { event_id := "uuid-1", decision_id := "dec-1", now := 10 }

/-- Concrete fresh draws for a second run. -/
def fresh2 : RunFresh := { event_id := "uuid-2", decision_id := "dec-2", now := 20 }

/-! ### Fine-grained model of the admission stage for the concurrency claim

The admission stage of `_process_ingest` performs a store read
(`get_event`, `src/app/main.py` line 40) and, when the key is absent, an
Event creation followed by a separate store write (`set_event`, line 120),
and returns the locally created Event no matter what the store write did.
To examine this under concurrency the read and the write are modelled as
separate atomic actions of a thread, with the shared store as the only
shared state. -/

/-- Program counter of one in-flight admission: before the store read,
between read and resolution, finished. -/
inductive AdmPC
  | start
  | afterGet
  | done
deriving Repr, DecidableEq

/-- Local state of one in-flight admission: its program counter, the
Event its `get_event` returned, and the Event it ends up returning. -/
structure ThreadState where
  pc : AdmPC
  readEv : Option Event
  result : Option Event
deriving Repr, DecidableEq

/-- Shared store plus the two racing admissions. -/
structure RaceState where
  store : Store
  t1 : ThreadState
  t2 : ThreadState
deriving Repr, DecidableEq

/-- One atomic step of one admission for key `k`: at `start`, perform the
store read of `src/app/main.py` line 40; at `afterGet`, either resolve to
the Event the read returned (duplicate branch, line 41) or create a fresh
Event and write it with `set_event` (lines 98-120), resolving to the
locally created Event regardless of the write's outcome — exactly as the
source returns its local `event` without consulting `set_event`'s result. -/
def stepAdmission (k : String) (eid : String) (now : Nat) (req : IngestRequest)
    (store : Store) (t : ThreadState) : Store × ThreadState :=
  match t.pc with
  | .start => (store, { t with pc := .afterGet, readEv := get_event store k })
  | .afterGet =>
      match t.readEv with
      | some e => (store, { t with pc := .done, result := some e })
      | none =>
          let event := mkEvent eid now req
          (set_event store k event, { t with pc := .done, result := some event })
  | .done => (store, t)

/-- A thread that has not run yet. -/
def initThread : ThreadState := { pc := .start, readEv := none, result := none }

/-- Run a schedule over the two racing admissions: `true` steps thread 1
(whose fresh uuid draw is `e1`), `false` steps thread 2 (draw `e2`). -/
def runRace (k e1 e2 : String) (now : Nat) (req : IngestRequest) :
    List Bool → RaceState → RaceState
  | [], s => s
  | b :: rest, s =>
      if b then
        let stepped := stepAdmission k e1 now req s.store s.t1
        runRace k e1 e2 now req rest { s with store := stepped.1, t1 := stepped.2 }
      else
        let stepped := stepAdmission k e2 now req s.store s.t2
        runRace k e1 e2 now req rest { s with store := stepped.1, t2 := stepped.2 }

/-- The state after two concurrent first-time admissions of `req0` under
key "abc-1" interleaved as: thread 1 reads, thread 2 reads, thread 1
creates and writes, thread 2 creates and writes. -/
def raceFinal : RaceState :=
  runRace "abc-1" "uuid-1" "uuid-2" 10 req0 [true, false, true, false]
    { store := [], t1 := initThread, t2 := initThread }

/-- A concrete high-risk decision for the risk-gating witness. -/
def dHigh : Decision :=
  { decision_id := "dec-9", event_id := "ev-9", route := "support_queue",
    risk_level := "high", reason := "escalated" }

/-- A concrete event for the risk-gating witness. -/
def ev9 : Event := mkEvent "ev-9" 0 req0

/-! ## Helper lemmas -/

/-- Looking up a key just written by `set_event` into a store where it was
absent yields that event. -/
theorem get_set_event (store : Store) (k : String) (e : Event)
    (h : get_event store k = none) :
    get_event (set_event store k e) k = some e := by
  unfold get_event at h
  unfold get_event set_event
  rw [h]
  simp [List.lookup]

/-- A key that `lookup` does not find has no entry in the list at all. -/
theorem lookup_none_filter (store : Store) (k : String)
    (h : store.lookup k = none) :
    store.filter (fun p => p.1 == k) = [] := by
  rw [List.filter_eq_nil_iff]
  intro p hp
  simp only [beq_iff_eq]
  intro hpk
  simp at h
  exact h p.1 p.2 (by simpa using hp) hpk.symm

/-! ## C6: router determinism -/

/-- C6: for every Event `e`, two calls of the router's `decide` on `e`
(with possibly different freshly drawn decision ids) yield Decisions with
identical `route` and `risk_level`: routing is a pure deterministic
function of the Event's content. -/
theorem router_deterministic (id1 id2 : String) (e : Event) :
    (route_event id1 e).route = (route_event id2 e).route ∧
      (route_event id1 e).risk_level = (route_event id2 e).risk_level := by
  by_cases h : e.event_type = "support_request" <;> simp [route_event, h]

/-! ## C9: the Slack adapter is a pure translation plus the shared pipeline -/

/-- C9: processing a Slack-shaped request through the Slack endpoint equals
processing the canonical translation (event_type "support_request", source
"slack", actor the Slack user, payload {text}, metadata {channel, ts})
through the identical pipeline used by the API endpoint. -/
theorem slack_adapter_is_translation (act : Event → Decision → Except String ActionResult)
    (fresh : RunFresh) (store : Store) (slack : SlackIngestRequest)
    (idempotency_key : Option String) :
    ingest_slack act fresh store slack idempotency_key =
      ingest_api act fresh store (canonicalOfSlack slack) idempotency_key := rfl

/-! ## C2: missing-key rejection -/

/-- C2: a well-formed request whose idempotency key is absent or empty is
rejected with a 400 client error, the single audit record emitted is the
`ingest_rejected` record carrying reason `missing_idempotency_key`, no
Event is created and the idempotency store is unchanged. -/
theorem missing_key_rejected (act : Event → Decision → Except String ActionResult)
    (fresh : RunFresh) (store : Store) (req : IngestRequest)
    (idempotency_key : Option String) (h : keyMissing idempotency_key = true) :
    (_process_ingest act fresh store req idempotency_key).result =
        .error { status_code := 400, detail := "Missing Idempotency-Key header" } ∧
      (_process_ingest act fresh store req idempotency_key).store = store ∧
      (_process_ingest act fresh store req idempotency_key).log = [rejectRecord req] ∧
      (rejectRecord req).event_name = "ingest_rejected" ∧
      ("reason", "missing_idempotency_key") ∈ (rejectRecord req).fields := by
  refine ⟨?_, ?_, ?_, rfl, ?_⟩ <;> simp [_process_ingest, h, rejectRecord]

/-- Witness for C2 at a concrete request with the key absent. -/
theorem missing_key_rejected_witness :
    keyMissing none = true ∧
      ((_process_ingest actFail fresh1 [] req0 none).result =
        .error { status_code := 400, detail := "Missing Idempotency-Key header" } ∧
      (_process_ingest actFail fresh1 [] req0 none).store = [] ∧
      (_process_ingest actFail fresh1 [] req0 none).log = [rejectRecord req0] ∧
      (rejectRecord req0).event_name = "ingest_rejected" ∧
      ("reason", "missing_idempotency_key") ∈ (rejectRecord req0).fields) :=
  ⟨rfl, missing_key_rejected actFail fresh1 [] req0 none rfl⟩

/-- Evaluation of the pipeline on a key that is not yet in the store: the
new-Event branch of `_process_ingest`. -/
theorem run_new (act : Event → Decision → Except String ActionResult)
    (f : RunFresh) (s : Store) (req : IngestRequest) (k : String)
    (hk : ¬k = "") (habs : get_event s k = none) :
    _process_ingest act f s req (some k) =
      { result := .ok { event := mkEvent f.event_id f.now req,
                        decision := route_event f.decision_id (mkEvent f.event_id f.now req) }
        store := set_event s k (mkEvent f.event_id f.now req)
        log := [createdRecord k (mkEvent f.event_id f.now req),
                decisionRecord (route_event f.decision_id (mkEvent f.event_id f.now req)),
                actOutcomeRecord (mkEvent f.event_id f.now req)
                  (route_event f.decision_id (mkEvent f.event_id f.now req))
                  (act (mkEvent f.event_id f.now req)
                    (route_event f.decision_id (mkEvent f.event_id f.now req)))] } := by
  simp [_process_ingest, keyMissing, hk, habs, decide_and_act]

/-- Evaluation of the pipeline on a key already present in the store: the
duplicate branch of `_process_ingest`. -/
theorem run_dup (act : Event → Decision → Except String ActionResult)
    (f : RunFresh) (s : Store) (req : IngestRequest) (k : String) (ev : Event)
    (hk : ¬k = "") (hpres : get_event s k = some ev) :
    _process_ingest act f s req (some k) =
      { result := .ok { event := ev, decision := route_event f.decision_id ev }
        store := s
        log := [duplicateRecord k ev,
                decisionRecord (route_event f.decision_id ev),
                actOutcomeRecord ev (route_event f.decision_id ev)
                  (act ev (route_event f.decision_id ev))] } := by
  simp [_process_ingest, keyMissing, hk, hpres, decide_and_act]

/-! ## C1: idempotency — first writer wins -/

/-- C1: for a key `k` not yet admitted, processing request `r1` and then
any request `r2` (possibly different content, different actuation, fresh
draws) under the same key returns the identical Event from both runs — the
Event created and stored by the first admission — and the second run's
response ignores `r2`'s content entirely. -/
theorem idempotent_event (act1 act2 : Event → Decision → Except String ActionResult)
    (f1 f2 : RunFresh) (s : Store) (r1 r2 : IngestRequest) (k : String)
    (hk : ¬k = "") (habs : get_event s k = none) :
    ((_process_ingest act1 f1 s r1 (some k)).result.map IngestResponse.event =
        .ok (mkEvent f1.event_id f1.now r1) ∧
      get_event (_process_ingest act1 f1 s r1 (some k)).store k =
        some (mkEvent f1.event_id f1.now r1) ∧
      (_process_ingest act2 f2 (_process_ingest act1 f1 s r1 (some k)).store r2
          (some k)).result.map IngestResponse.event =
        .ok (mkEvent f1.event_id f1.now r1)) := by
  have h1 := run_new act1 f1 s r1 k hk habs
  have hget1 : get_event (set_event s k (mkEvent f1.event_id f1.now r1)) k =
      some (mkEvent f1.event_id f1.now r1) := get_set_event s k _ habs
  rw [h1]
  have h2 := run_dup act2 f2 (set_event s k (mkEvent f1.event_id f1.now r1)) r2 k
    (mkEvent f1.event_id f1.now r1) hk hget1
  rw [h2]
  exact ⟨rfl, hget1, rfl⟩

/-- Witness for C1: key "abc-1" absent from the empty store, two requests
with different content. -/
theorem idempotent_event_witness :
    (¬"abc-1" = "" ∧ get_event [] "abc-1" = none) ∧
      ((_process_ingest actOk fresh1 [] req0 (some "abc-1")).result.map
          IngestResponse.event = .ok (mkEvent fresh1.event_id fresh1.now req0) ∧
        get_event (_process_ingest actOk fresh1 [] req0 (some "abc-1")).store "abc-1" =
          some (mkEvent fresh1.event_id fresh1.now req0) ∧
        (_process_ingest actFail fresh2
            (_process_ingest actOk fresh1 [] req0 (some "abc-1")).store req1
            (some "abc-1")).result.map IngestResponse.event =
          .ok (mkEvent fresh1.event_id fresh1.now req0)) :=
  ⟨⟨by decide, rfl⟩,
    idempotent_event actOk actFail fresh1 fresh2 [] req0 req1 "abc-1" (by decide) rfl⟩

/-- The audit record for an actuation outcome carries `actionName` of that
outcome as its event name. -/
theorem actOutcome_name (ev : Event) (d : Decision) (r : Except String ActionResult) :
    (actOutcomeRecord ev d r).event_name = actionName r := by
  cases r with
  | ok a => rfl
  | error e => rfl

/-- The action-outcome audit record is always one of the three action
record kinds. -/
theorem actionName_mem (r : Except String ActionResult) :
    actionName r ∈ ["action_executed", "action_noop", "action_failed"] := by
  cases r with
  | ok a => by_cases hs : a.status = "executed" <;> simp [actionName, hs]
  | error e => simp [actionName]

/-! ## C3: actuation failure is absorbed -/

/-- C3: if the actuation effect raises for the (event, decision) pair of a
pipeline run — whether a first-time or a duplicate admission — the
pipeline still returns that `(event, decision)` pair as a successful
response (no exception surfaces) and the run emits exactly one
`action_failed` audit record. -/
theorem actuation_failure_absorbed (act : Event → Decision → Except String ActionResult)
    (f : RunFresh) (s : Store) (req : IngestRequest) (k : String) (msg : String)
    (hk : ¬k = "")
    (hact : act (admittedEvent s k f req)
        (route_event f.decision_id (admittedEvent s k f req)) = .error msg) :
    (_process_ingest act f s req (some k)).result =
        .ok { event := admittedEvent s k f req,
              decision := route_event f.decision_id (admittedEvent s k f req) } ∧
      countName (_process_ingest act f s req (some k)).log "action_failed" = 1 := by
  cases hres : get_event s k with
  | some ev =>
      have he : admittedEvent s k f req = ev := by simp [admittedEvent, hres]
      rw [he] at hact ⊢
      rw [run_dup act f s req k ev hk hres]
      refine ⟨rfl, ?_⟩
      simp [countName, duplicateRecord, decisionRecord, actOutcomeRecord, hact, failedRecord]
  | none =>
      have he : admittedEvent s k f req = mkEvent f.event_id f.now req := by
        simp [admittedEvent, hres]
      rw [he] at hact ⊢
      rw [run_new act f s req k hk hres]
      refine ⟨rfl, ?_⟩
      simp [countName, createdRecord, decisionRecord, actOutcomeRecord, hact, failedRecord]

/-- Witness for C3: a raising actuation effect on a first-time admission
of a concrete request. -/
theorem actuation_failure_absorbed_witness :
    (¬"abc-1" = "" ∧
      actFail (admittedEvent [] "abc-1" fresh1 req0)
          (route_event fresh1.decision_id (admittedEvent [] "abc-1" fresh1 req0)) =
        .error "disk full") ∧
      ((_process_ingest actFail fresh1 [] req0 (some "abc-1")).result =
          .ok { event := admittedEvent [] "abc-1" fresh1 req0,
                decision := route_event fresh1.decision_id
                  (admittedEvent [] "abc-1" fresh1 req0) } ∧
        countName (_process_ingest actFail fresh1 [] req0 (some "abc-1")).log
          "action_failed" = 1) :=
  ⟨⟨by decide, rfl⟩,
    actuation_failure_absorbed actFail fresh1 [] req0 "abc-1" "disk full" (by decide) rfl⟩

/-! ## C4: duplicates are re-routed and re-acted, one Event only -/

/-- C4: submitting the same key twice re-executes routing and actuation on
both runs: each run returns a freshly computed Decision (built from that
run's own decision_id draw), each run emits exactly one `decision_created`
and exactly one action-outcome audit record, yet the store holds exactly
one Event for the key and the second run creates none. -/
theorem duplicate_rerouted (act1 act2 : Event → Decision → Except String ActionResult)
    (f1 f2 : RunFresh) (s : Store) (r1 r2 : IngestRequest) (k : String)
    (hk : ¬k = "") (habs : get_event s k = none) :
    ((_process_ingest act1 f1 s r1 (some k)).result =
        .ok { event := mkEvent f1.event_id f1.now r1,
              decision := route_event f1.decision_id (mkEvent f1.event_id f1.now r1) } ∧
      (_process_ingest act2 f2 (_process_ingest act1 f1 s r1 (some k)).store r2
          (some k)).result =
        .ok { event := mkEvent f1.event_id f1.now r1,
              decision := route_event f2.decision_id (mkEvent f1.event_id f1.now r1) } ∧
      countName (_process_ingest act1 f1 s r1 (some k)).log "decision_created" = 1 ∧
      countName (_process_ingest act2 f2 (_process_ingest act1 f1 s r1 (some k)).store r2
          (some k)).log "decision_created" = 1 ∧
      countAction (_process_ingest act1 f1 s r1 (some k)).log = 1 ∧
      countAction (_process_ingest act2 f2 (_process_ingest act1 f1 s r1 (some k)).store r2
          (some k)).log = 1 ∧
      countName (_process_ingest act2 f2 (_process_ingest act1 f1 s r1 (some k)).store r2
          (some k)).log "ingest_created" = 0 ∧
      ((_process_ingest act2 f2 (_process_ingest act1 f1 s r1 (some k)).store r2
          (some k)).store.filter (fun p => p.1 == k)) =
        [(k, mkEvent f1.event_id f1.now r1)]) := by
  have h1 := run_new act1 f1 s r1 k hk habs
  have hget1 : get_event (set_event s k (mkEvent f1.event_id f1.now r1)) k =
      some (mkEvent f1.event_id f1.now r1) := get_set_event s k _ habs
  rw [h1]
  have h2 := run_dup act2 f2 (set_event s k (mkEvent f1.event_id f1.now r1)) r2 k
    (mkEvent f1.event_id f1.now r1) hk hget1
  rw [h2]
  have hl : s.lookup k = none := habs
  have hc1 : countAction [createdRecord k (mkEvent f1.event_id f1.now r1),
      decisionRecord (route_event f1.decision_id (mkEvent f1.event_id f1.now r1)),
      actOutcomeRecord (mkEvent f1.event_id f1.now r1)
        (route_event f1.decision_id (mkEvent f1.event_id f1.now r1))
        (act1 (mkEvent f1.event_id f1.now r1)
          (route_event f1.decision_id (mkEvent f1.event_id f1.now r1)))] = 1 := by
    cases hr : act1 (mkEvent f1.event_id f1.now r1)
        (route_event f1.decision_id (mkEvent f1.event_id f1.now r1)) with
    | ok a =>
        by_cases hs : a.status = "executed" <;>
          simp [countAction, createdRecord, decisionRecord, actOutcomeRecord,
            actionRecord, hs]
    | error e =>
        simp [countAction, createdRecord, decisionRecord, actOutcomeRecord, failedRecord]
  have hc2 : countAction [duplicateRecord k (mkEvent f1.event_id f1.now r1),
      decisionRecord (route_event f2.decision_id (mkEvent f1.event_id f1.now r1)),
      actOutcomeRecord (mkEvent f1.event_id f1.now r1)
        (route_event f2.decision_id (mkEvent f1.event_id f1.now r1))
        (act2 (mkEvent f1.event_id f1.now r1)
          (route_event f2.decision_id (mkEvent f1.event_id f1.now r1)))] = 1 := by
    cases hr : act2 (mkEvent f1.event_id f1.now r1)
        (route_event f2.decision_id (mkEvent f1.event_id f1.now r1)) with
    | ok a =>
        by_cases hs : a.status = "executed" <;>
          simp [countAction, duplicateRecord, decisionRecord, actOutcomeRecord,
            actionRecord, hs]
    | error e =>
        simp [countAction, duplicateRecord, decisionRecord, actOutcomeRecord, failedRecord]
  have hd1 : ∀ ev d r, countName [createdRecord k ev, decisionRecord d,
      actOutcomeRecord ev d r] "decision_created" = 1 := by
    intro ev d r
    cases r with
    | ok a =>
        by_cases hs : a.status = "executed" <;>
          simp [countName, createdRecord, decisionRecord, actOutcomeRecord,
            actionRecord, hs]
    | error e =>
        simp [countName, createdRecord, decisionRecord, actOutcomeRecord, failedRecord]
  have hd2 : ∀ ev d r, countName [duplicateRecord k ev, decisionRecord d,
      actOutcomeRecord ev d r] "decision_created" = 1 := by
    intro ev d r
    cases r with
    | ok a =>
        by_cases hs : a.status = "executed" <;>
          simp [countName, duplicateRecord, decisionRecord, actOutcomeRecord,
            actionRecord, hs]
    | error e =>
        simp [countName, duplicateRecord, decisionRecord, actOutcomeRecord, failedRecord]
  have hn2 : ∀ ev d r, countName [duplicateRecord k ev, decisionRecord d,
      actOutcomeRecord ev d r] "ingest_created" = 0 := by
    intro ev d r
    cases r with
    | ok a =>
        by_cases hs : a.status = "executed" <;>
          simp [countName, duplicateRecord, decisionRecord, actOutcomeRecord,
            actionRecord, hs]
    | error e =>
        simp [countName, duplicateRecord, decisionRecord, actOutcomeRecord, failedRecord]
  refine ⟨rfl, rfl, hd1 _ _ _, hd2 _ _ _, hc1, hc2, hn2 _ _ _, ?_⟩
  show (set_event s k (mkEvent f1.event_id f1.now r1)).filter (fun p => p.1 == k) =
    [(k, mkEvent f1.event_id f1.now r1)]
  unfold set_event
  rw [hl]
  simp [List.filter_cons, lookup_none_filter s k hl]

/-- Witness for C4: key "abc-1" absent from the empty store, duplicate
submission with different content and fresh draws. -/
theorem duplicate_rerouted_witness :
    (¬"abc-1" = "" ∧ get_event [] "abc-1" = none) ∧
      ((_process_ingest actOk fresh1 [] req0 (some "abc-1")).result =
          .ok { event := mkEvent fresh1.event_id fresh1.now req0,
                decision := route_event fresh1.decision_id
                  (mkEvent fresh1.event_id fresh1.now req0) } ∧
        (_process_ingest actOk fresh2 (_process_ingest actOk fresh1 [] req0
            (some "abc-1")).store req1 (some "abc-1")).result =
          .ok { event := mkEvent fresh1.event_id fresh1.now req0,
                decision := route_event fresh2.decision_id
                  (mkEvent fresh1.event_id fresh1.now req0) } ∧
        countName (_process_ingest actOk fresh1 [] req0 (some "abc-1")).log
          "decision_created" = 1 ∧
        countName (_process_ingest actOk fresh2 (_process_ingest actOk fresh1 [] req0
            (some "abc-1")).store req1 (some "abc-1")).log "decision_created" = 1 ∧
        countAction (_process_ingest actOk fresh1 [] req0 (some "abc-1")).log = 1 ∧
        countAction (_process_ingest actOk fresh2 (_process_ingest actOk fresh1 [] req0
            (some "abc-1")).store req1 (some "abc-1")).log = 1 ∧
        countName (_process_ingest actOk fresh2 (_process_ingest actOk fresh1 [] req0
            (some "abc-1")).store req1 (some "abc-1")).log "ingest_created" = 0 ∧
        ((_process_ingest actOk fresh2 (_process_ingest actOk fresh1 [] req0
            (some "abc-1")).store req1 (some "abc-1")).store.filter
              (fun p => p.1 == "abc-1")) =
          [("abc-1", mkEvent fresh1.event_id fresh1.now req0)]) :=
  ⟨⟨by decide, rfl⟩,
    duplicate_rerouted actOk actOk fresh1 fresh2 [] req0 req1 "abc-1" (by decide) rfl⟩

/-! ## C7: risk gating in the actuator -/

/-- C7: for every (event, decision) pair whose risk level is above the
configured threshold or whose route is unsupported, the actuator's
`execute_decision` returns an ActionResult with status `noop` and a
populated reason, and attempts no underlying external effect. -/
theorem risk_gate_noop (action_id : String) (event : Event) (decision : Decision)
    (h : risk_threshold < riskRank decision.risk_level ∨
      decision.route ∉ supported_routes) :
    (execute_decision action_id event decision).1.status = "noop" ∧
      (execute_decision action_id event decision).1.reason.isSome = true ∧
      (execute_decision action_id event decision).2 = [] := by
  by_cases hr : risk_threshold < riskRank decision.risk_level
  · simp [execute_decision, hr]
  · rcases h with h | h
    · exact absurd h hr
    · simp [execute_decision, hr, h]

/-- Witness for C7: a high-risk decision on a supported route resolves to
noop with a reason and no attempted effect. -/
theorem risk_gate_noop_witness :
    (risk_threshold < riskRank dHigh.risk_level ∨ dHigh.route ∉ supported_routes) ∧
      ((execute_decision "act-9" ev9 dHigh).1.status = "noop" ∧
        (execute_decision "act-9" ev9 dHigh).1.reason.isSome = true ∧
        (execute_decision "act-9" ev9 dHigh).2 = []) :=
  ⟨Or.inl (by decide), risk_gate_noop "act-9" ev9 dHigh (Or.inl (by decide))⟩

/-! ## C10: the idempotency key namespace is shared across adapters -/

/-- C10: a key first admitted through the API endpoint is treated as a
duplicate when later submitted through the Slack endpoint: the Slack run
returns the originally stored Event (ignoring the Slack request's
content), adds nothing to the store, and opens its audit trail with an
`ingest_duplicate` record. -/
theorem shared_key_namespace (act1 act2 : Event → Decision → Except String ActionResult)
    (f1 f2 : RunFresh) (s : Store) (r1 : IngestRequest) (sl : SlackIngestRequest)
    (k : String) (hk : ¬k = "") (habs : get_event s k = none) :
    ((ingest_slack act2 f2 (ingest_api act1 f1 s r1 (some k)).store sl
          (some k)).result.map IngestResponse.event =
        .ok (mkEvent f1.event_id f1.now r1) ∧
      (ingest_slack act2 f2 (ingest_api act1 f1 s r1 (some k)).store sl
          (some k)).store = (ingest_api act1 f1 s r1 (some k)).store ∧
      (ingest_slack act2 f2 (ingest_api act1 f1 s r1 (some k)).store sl
          (some k)).log.head? =
        some (duplicateRecord k (mkEvent f1.event_id f1.now r1))) := by
  have h1 : (ingest_api act1 f1 s r1 (some k)).store =
      set_event s k (mkEvent f1.event_id f1.now r1) := by
    show (_process_ingest act1 f1 s r1 (some k)).store = _
    rw [run_new act1 f1 s r1 k hk habs]
  have hget1 : get_event (set_event s k (mkEvent f1.event_id f1.now r1)) k =
      some (mkEvent f1.event_id f1.now r1) := get_set_event s k _ habs
  rw [h1]
  show ((_process_ingest act2 f2 (set_event s k (mkEvent f1.event_id f1.now r1))
        (canonicalOfSlack sl) (some k)).result.map IngestResponse.event =
      .ok (mkEvent f1.event_id f1.now r1) ∧
    (_process_ingest act2 f2 (set_event s k (mkEvent f1.event_id f1.now r1))
        (canonicalOfSlack sl) (some k)).store =
      set_event s k (mkEvent f1.event_id f1.now r1) ∧
    (_process_ingest act2 f2 (set_event s k (mkEvent f1.event_id f1.now r1))
        (canonicalOfSlack sl) (some k)).log.head? =
      some (duplicateRecord k (mkEvent f1.event_id f1.now r1)))
  rw [run_dup act2 f2 (set_event s k (mkEvent f1.event_id f1.now r1))
    (canonicalOfSlack sl) k (mkEvent f1.event_id f1.now r1) hk hget1]
  exact ⟨rfl, rfl, rfl⟩

/-- Witness for C10: key "abc-1" admitted via the API on an empty store,
then submitted via the Slack endpoint. -/
theorem shared_key_namespace_witness :
    (¬"abc-1" = "" ∧ get_event [] "abc-1" = none) ∧
      ((ingest_slack actFail fresh2 (ingest_api actOk fresh1 [] req0
            (some "abc-1")).store slack0 (some "abc-1")).result.map
          IngestResponse.event = .ok (mkEvent fresh1.event_id fresh1.now req0) ∧
        (ingest_slack actFail fresh2 (ingest_api actOk fresh1 [] req0
            (some "abc-1")).store slack0 (some "abc-1")).store =
          (ingest_api actOk fresh1 [] req0 (some "abc-1")).store ∧
        (ingest_slack actFail fresh2 (ingest_api actOk fresh1 [] req0
            (some "abc-1")).store slack0 (some "abc-1")).log.head? =
          some (duplicateRecord "abc-1" (mkEvent fresh1.event_id fresh1.now req0))) :=
  ⟨⟨by decide, rfl⟩,
    shared_key_namespace actOk actFail fresh1 fresh2 [] req0 slack0 "abc-1"
      (by decide) rfl⟩

/-! ## C8: exactly one audit record per stage transition, in order -/

/-- C8: the audit trail of a run has exactly one record per stage
transition, in emission order.  A missing-key run emits exactly the single
`ingest_rejected` record; a first-time admission emits `ingest_created`,
then `decision_created`, then exactly one of `action_executed`,
`action_noop` or `action_failed`; a duplicate admission emits
`ingest_duplicate`, then `decision_created`, then exactly one action
record. -/
theorem one_audit_record_per_transition
    (act : Event → Decision → Except String ActionResult) (f : RunFresh)
    (s : Store) (req : IngestRequest) (key : Option String) :
    (keyMissing key = true →
        (_process_ingest act f s req key).log.map AuditRecord.event_name =
          ["ingest_rejected"]) ∧
      (∀ k : String, key = some k → ¬k = "" → get_event s k = none →
        (_process_ingest act f s req key).log.map AuditRecord.event_name =
            ["ingest_created", "decision_created",
              actionName (act (mkEvent f.event_id f.now req)
                (route_event f.decision_id (mkEvent f.event_id f.now req)))] ∧
          actionName (act (mkEvent f.event_id f.now req)
              (route_event f.decision_id (mkEvent f.event_id f.now req))) ∈
            ["action_executed", "action_noop", "action_failed"]) ∧
      (∀ (k : String) (ev : Event), key = some k → ¬k = "" →
        get_event s k = some ev →
        (_process_ingest act f s req key).log.map AuditRecord.event_name =
            ["ingest_duplicate", "decision_created",
              actionName (act ev (route_event f.decision_id ev))] ∧
          actionName (act ev (route_event f.decision_id ev)) ∈
            ["action_executed", "action_noop", "action_failed"]) := by
  refine ⟨?_, ?_, ?_⟩
  · intro h
    simp [_process_ingest, h, rejectRecord]
  · intro k hkey hk habs
    subst hkey
    rw [run_new act f s req k hk habs]
    refine ⟨?_, actionName_mem _⟩
    simp [createdRecord, decisionRecord, actOutcome_name]
  · intro k ev hkey hk hpres
    subst hkey
    rw [run_dup act f s req k ev hk hpres]
    refine ⟨?_, actionName_mem _⟩
    simp [duplicateRecord, decisionRecord, actOutcome_name]

/-- Witness for C8: the first-time-admission clause at a concrete run
whose actuation succeeds with a noop. -/
theorem one_audit_record_per_transition_witness :
    (some "abc-1" = some "abc-1" ∧ ¬"abc-1" = "" ∧ get_event [] "abc-1" = none) ∧
      ((_process_ingest actFail fresh1 [] req0 (some "abc-1")).log.map
          AuditRecord.event_name =
        ["ingest_created", "decision_created",
          actionName (actFail (mkEvent fresh1.event_id fresh1.now req0)
            (route_event fresh1.decision_id
              (mkEvent fresh1.event_id fresh1.now req0)))] ∧
      actionName (actFail (mkEvent fresh1.event_id fresh1.now req0)
          (route_event fresh1.decision_id
            (mkEvent fresh1.event_id fresh1.now req0))) ∈
        ["action_executed", "action_noop", "action_failed"]) :=
  ⟨⟨rfl, by decide, rfl⟩,
    (one_audit_record_per_transition actFail fresh1 [] req0 (some "abc-1")).2.1
      "abc-1" rfl (by decide) rfl⟩

/-! ## C5: admission is a plain read-then-write, not an atomic
check-and-set -/

/-- C5 (refuting the claim on the code): under the interleaving
t1-read, t2-read, t1-create-and-write, t2-create-and-write of two
concurrent first-time admissions for key "abc-1", both threads observe
the key absent and each returns its own locally created Event: the two
admissions observe two distinct Events for one key — even though the
modelled store's `set_event` itself is first-writer-wins, because the
orchestrator's admission (`src/app/main.py` lines 40 and 98-120) is a
separate `get_event` followed by `set_event` whose outcome it ignores.
The store ends up holding thread 1's Event while thread 2 returns a
different one. -/
theorem race_two_distinct_events :
    raceFinal.t1.pc = AdmPC.done ∧ raceFinal.t2.pc = AdmPC.done ∧
      raceFinal.t1.result = some (mkEvent "uuid-1" 10 req0) ∧
      raceFinal.t2.result = some (mkEvent "uuid-2" 10 req0) ∧
      get_event raceFinal.store "abc-1" = some (mkEvent "uuid-1" 10 req0) ∧
      ¬raceFinal.t1.result = raceFinal.t2.result := by
  refine ⟨rfl, rfl, rfl, rfl, rfl, by decide⟩
